import Mathlib

/-!
Shallow embedding of the blue/green routing subsystem and the ECS deploy
state machine of the `orb` CI/CD scripts repository
(`src/scripts/utils/release.py`, `src/scripts/utils/aws.py`,
`src/scripts/color_flip.py`), together with proofs about the claims of
its specification.

Conventions of the embedding:
* Python dict-shaped routing payloads are the fixed-shape `Info` record with
  `Option` fields (a missing key is `none`; reading a missing key raises
  `PyErr.keyError`, as a Python subscript would).
* Exceptions are `Except PyErr`; a Python function that catches everything
  and returns a default is embedded as a total function.
* Network calls (DNS resolution, AWS API calls) are replaced by explicit
  outcome parameters; the functions under verification are embedded
  statement by statement over those outcomes.
* The module-level cache dictionaries `last_weight`, `last_green_version`,
  `last_blue_version`, `last_retrieved` of `release.py` are threaded as an
  explicit `CacheState`; wall-clock instants are natural numbers (seconds).
-/

namespace CircleOrb

/-- Python exception outcomes that the embedded code can raise. -/
inductive PyErr
  | keyError (key : String)
  | valueError (msg : String)
  | typeError (msg : String)
  | attributeError (msg : String)
  | exception (msg : String)
  deriving DecidableEq, Repr

/-- A routing-info payload: the dict `{'weight': int, 'blue': str, 'green': str}`
from `release.py`.  A `none` field models an absent dict key. -/
structure Info where
  weight : Option Int
  blue : Option String
  green : Option String
  deriving DecidableEq, Repr

/-- `FULL_ROUTING = { "blue": 0, "green": 100}` (release.py line 34);
subscripting with another key raises `KeyError`, hence the `Option`. -/
def FULL_ROUTING (color : String) : Option Int :=
  if color = "blue" then some 0
  else if color = "green" then some 100
  else none

/-- `info[color] = v` for the routing dict: updates the `blue` or `green`
key.  The embedded code only ever subscripts with these two keys. -/
def setColorKey (info : Info) (color : String) (v : String) : Info :=
  if color = "blue" then { info with blue := some v }
  else if color = "green" then { info with green := some v }
  else info

/-- Lines 521-532 of `release.py` (`get_inactive_color`): the two
successive `if` statements assigning `active_color` / `inactive_color`
starting from Python `None`. -/
def resolve_colors (weight : Int) : Option String × Option String :=
  let acic : Option String × Option String := (none, none)
  let acic := if weight < 50 then (some "blue", some "green") else acic
  let acic := if 50 ≤ weight then (some "green", some "blue") else acic
  acic

/-- `release.get_inactive_color` (lines 505-550), after the routing info has
been fetched (the KVS / DNS fetch of lines 509-514 is composed separately).
`version` is the value `get_version()` would return, `writeOk` the result of
the `set_active_color` backend write.  Returns the Python return value
together with the list of records written through `set_active_color`. -/
def get_inactive_color (info : Info) (force_routing : Bool) (version : String)
    (writeOk : Bool) : Except PyErr (Option String × List Info) := do
  let weight ← match info.weight with
    | none => Except.error (PyErr.keyError "weight")
    | some w => Except.ok w
  if weight < 0 then
    Except.ok (none, [])
  else
    let active_color := (resolve_colors weight).1
    let inactive_color := (resolve_colors weight).2
    if force_routing ∧ weight ≠ 0 ∧ weight ≠ 100 then
      match active_color with
      | some ac =>
        let info := setColorKey info ac version
        match FULL_ROUTING ac with
        | none => Except.error (PyErr.keyError ac)
        | some w' =>
          let info := { info with weight := some w' }
          if writeOk then
            Except.ok (inactive_color, [info])
          else
            Except.ok (none, [info])
      | none =>
        -- unreachable: `resolve_colors` assigns a color for every weight;
        -- Python would reach `FULL_ROUTING[None]`, a KeyError
        Except.error (PyErr.keyError "None")
    else
      Except.ok (inactive_color, [])

/-- **C1**: for every routing record with integer weight `w` in `[0,100]`,
the color resolution in `get_inactive_color` assigns active=blue and
inactive=green when `w < 50`, and active=green and inactive=blue when
`w >= 50`; in particular on `[0,49]` the active color is blue, and on
`[50,100]` it is green (and `get_inactive_color` without force routing
returns the corresponding inactive color). -/
theorem c1_color_resolution (w : Int) (b g : Option String) (v : String)
    (wk : Bool) (h0 : 0 ≤ w) (_h100 : w ≤ 100) :
    (w < 50 → resolve_colors w = (some "blue", some "green") ∧
      get_inactive_color ⟨some w, b, g⟩ false v wk =
        Except.ok (some "green", [])) ∧
    (50 ≤ w → resolve_colors w = (some "green", some "blue") ∧
      get_inactive_color ⟨some w, b, g⟩ false v wk =
        Except.ok (some "blue", [])) := by
  constructor
  · intro hlt
    have hr : resolve_colors w = (some "blue", some "green") := by
      simp [resolve_colors, hlt, not_le.mpr hlt]
    refine ⟨hr, ?_⟩
    simp [get_inactive_color, Bind.bind, Except.bind, not_lt.mpr h0, hr]
  · intro hge
    have hr : resolve_colors w = (some "green", some "blue") := by
      simp [resolve_colors, not_lt.mpr hge, hge]
    refine ⟨hr, ?_⟩
    simp [get_inactive_color, Bind.bind, Except.bind, not_lt.mpr h0, hr]

/-- Witness for `c1_color_resolution` at `w = 30` and `w = 75`. -/
theorem c1_color_resolution_witness :
    ((0:Int) ≤ 30 ∧ (30:Int) ≤ 100 ∧
      ((30:Int) < 50 → resolve_colors 30 = (some "blue", some "green") ∧
        get_inactive_color ⟨some 30, some "x", some "y"⟩ false "v" true =
          Except.ok (some "green", [])) ∧
      ((50:Int) ≤ 30 → resolve_colors 30 = (some "green", some "blue") ∧
        get_inactive_color ⟨some 30, some "x", some "y"⟩ false "v" true =
          Except.ok (some "blue", []))) ∧
    ((0:Int) ≤ 75 ∧ (75:Int) ≤ 100 ∧
      ((75:Int) < 50 → resolve_colors 75 = (some "blue", some "green") ∧
        get_inactive_color ⟨some 75, some "x", some "y"⟩ false "v" true =
          Except.ok (some "green", [])) ∧
      ((50:Int) ≤ 75 → resolve_colors 75 = (some "green", some "blue") ∧
        get_inactive_color ⟨some 75, some "x", some "y"⟩ false "v" true =
          Except.ok (some "blue", []))) :=
  ⟨⟨by decide, by decide,
    c1_color_resolution 30 (some "x") (some "y") "v" true (by decide) (by decide)⟩,
   ⟨by decide, by decide,
    c1_color_resolution 75 (some "x") (some "y") "v" true (by decide) (by decide)⟩⟩

/-- **C5** (amended: the current weight must also be nonnegative): with
`force_routing` set and a nonnegative weight that is neither 0 nor 100,
`get_inactive_color` stamps the active color's version field with the
caller's build version, sets the weight to the active color's full-weight
target (blue→0, green→100), and performs the backend write before
returning; if that write fails the call returns `None` instead of the
inactive color.  With weight 0 or 100, or without `force_routing`, no
write occurs. -/
theorem c5_force_routing_write (w : Int) (b g : Option String) (v : String)
    (wk : Bool) (h0 : 0 ≤ w) :
    (0 < w → w < 50 →
      get_inactive_color ⟨some w, b, g⟩ true v wk =
        if wk then Except.ok (some "green", [⟨some 0, some v, g⟩])
        else Except.ok (none, [⟨some 0, some v, g⟩])) ∧
    (50 ≤ w → w ≠ 100 →
      get_inactive_color ⟨some w, b, g⟩ true v wk =
        if wk then Except.ok (some "blue", [⟨some 100, b, some v⟩])
        else Except.ok (none, [⟨some 100, b, some v⟩])) ∧
    ((w = 0 ∨ w = 100) →
      get_inactive_color ⟨some w, b, g⟩ true v wk =
        Except.ok ((resolve_colors w).2, [])) ∧
    (get_inactive_color ⟨some w, b, g⟩ false v wk =
      Except.ok ((resolve_colors w).2, [])) := by
  refine ⟨?_, ?_, ?_, ?_⟩
  · intro hpos hlt
    have hr : resolve_colors w = (some "blue", some "green") := by
      simp [resolve_colors, hlt, not_le.mpr hlt]
    have hne : w ≠ 0 := by omega
    have hne' : w ≠ 100 := by omega
    simp [get_inactive_color, Bind.bind, Except.bind, not_lt.mpr h0, hr,
      hne, hne', setColorKey, FULL_ROUTING]
  · intro hge hne'
    have hr : resolve_colors w = (some "green", some "blue") := by
      simp [resolve_colors, not_lt.mpr hge, hge]
    have hne : w ≠ 0 := by omega
    simp [get_inactive_color, Bind.bind, Except.bind, not_lt.mpr h0, hr,
      hne, hne', setColorKey, FULL_ROUTING]
  · rintro (rfl | rfl) <;>
      simp [get_inactive_color, Bind.bind, Except.bind]
  · simp [get_inactive_color, Bind.bind, Except.bind, not_lt.mpr h0]

/-- **C5 counterexample**: at weight `-1` — which satisfies the claim's
precondition "force_routing set and weight neither 0 nor 100" — the
function performs **no** write and returns `None` through the
unknown-weight branch, contradicting the claim's "performs the write to
the backing store before returning". -/
theorem c5_counterexample_negative_weight :
    ((-1 : Int) ≠ 0 ∧ (-1 : Int) ≠ 100) ∧
    get_inactive_color ⟨some (-1), some "x", some "y"⟩ true "v" true =
      Except.ok (none, []) := by
  constructor
  · decide
  · rfl

/-- Witness for `c5_force_routing_write` at `w = 30`, `wk = false`. -/
theorem c5_force_routing_write_witness :
    (0 : Int) ≤ 30 ∧
    (((0:Int) < 30 → (30:Int) < 50 →
      get_inactive_color ⟨some 30, some "x", some "y"⟩ true "v" false =
        if false then Except.ok (some "green", [⟨some 0, some "v", some "y"⟩])
        else Except.ok (none, [⟨some 0, some "v", some "y"⟩])) ∧
    ((50:Int) ≤ 30 → (30:Int) ≠ 100 →
      get_inactive_color ⟨some 30, some "x", some "y"⟩ true "v" false =
        if false then Except.ok (some "blue", [⟨some 100, some "x", some "v"⟩])
        else Except.ok (none, [⟨some 100, some "x", some "v"⟩])) ∧
    (((30:Int) = 0 ∨ (30:Int) = 100) →
      get_inactive_color ⟨some 30, some "x", some "y"⟩ true "v" false =
        Except.ok ((resolve_colors 30).2, [])) ∧
    (get_inactive_color ⟨some 30, some "x", some "y"⟩ false "v" false =
      Except.ok ((resolve_colors 30).2, []))) :=
  ⟨by decide,
   c5_force_routing_write 30 (some "x") (some "y") "v" false (by decide)⟩

/-- The four module-level cache dictionaries of `release.py` (lines 29-32),
keyed by record name.  Wall-clock instants are seconds as naturals. -/
structure CacheState where
  last_weight : String → Option Int
  last_green_version : String → Option String
  last_blue_version : String → Option String
  last_retrieved : String → Option Nat

/-- Pointwise dictionary update `d[k] = v`. -/
def updMap {α : Type} (d : String → Option α) (k : String) (v : α) :
    String → Option α :=
  fun k' => if k' = k then some v else d k'

/-- The empty cache (all four dictionaries empty). -/
def emptyCache : CacheState :=
  ⟨fun _ => none, fun _ => none, fun _ => none, fun _ => none⟩

/-- `record_name in last_retrieved and (now - last_retrieved[record_name]).total_seconds() < 30`
(release.py line 425). -/
def cacheFresh (st : CacheState) (name : String) (now : Nat) : Bool :=
  match st.last_retrieved name with
  | some t => now - t < 30
  | none => false

/-- Lines 439-442 / 458-461: store weight and both color versions together
with the fetch instant. -/
def cacheStore (st : CacheState) (name : String) (w : Int) (g b : String)
    (now : Nat) : CacheState where
  last_weight := updMap st.last_weight name w
  last_green_version := updMap st.last_green_version name g
  last_blue_version := updMap st.last_blue_version name b
  last_retrieved := updMap st.last_retrieved name now

/-- Outcome of the DNS TXT fetch-and-parse of `get_routing_info`:
`bare w` — `int(txt_records[0].strings[0])` succeeds; `legacy w v` — the
`ValueError` handler parses `{'weight': w, 'version': v}`; `full w b g` —
it parses `{'weight': w, 'blue': b, 'green': g}`; `fail` —
`resolver.resolve` raises (the final `except Exception` branch). -/
inductive TxtOutcome
  | bare (w : Int)
  | legacy (w : Int) (version : String)
  | full (w : Int) (blue green : String)
  | fail
  deriving DecidableEq, Repr

/-- `release.get_routing_info` (lines 407-467) over an explicit cache state,
current instant, and DNS outcome.  Returns the info dict, the new cache
state, and whether `resolver.resolve` was invoked.  The cached branch reads
the cache dictionaries (a missing companion entry would be a Python
`KeyError`, hence the `Except`). -/
def get_routing_info (name : String) (now : Nat) (st : CacheState)
    (dns : TxtOutcome) : Except PyErr (Info × CacheState × Bool) :=
  if cacheFresh st name now then
    match st.last_weight name, st.last_green_version name,
        st.last_blue_version name with
    | some w, some g, some b =>
      Except.ok ({ weight := some w, green := some g, blue := some b }, st, false)
    | _, _, _ => Except.error (PyErr.keyError name)
  else
    match dns with
    | .bare w =>
      Except.ok ({ weight := some w, green := some "unknown", blue := some "unknown" },
        cacheStore st name w "unknown" "unknown" now, true)
    | .legacy w v =>
      Except.ok ({ weight := some w, green := some v, blue := some v },
        cacheStore st name w v v now, true)
    | .full w b g =>
      Except.ok ({ weight := some w, green := some g, blue := some b },
        cacheStore st name w g b now, true)
    | .fail =>
      Except.ok ({ weight := none, green := none, blue := none }, st, true)

/-- Lookup of a just-stored cache entry at its own key. -/
theorem cacheStore_last_weight (st : CacheState) (n : String) (w : Int)
    (g b : String) (t : Nat) : (cacheStore st n w g b t).last_weight n = some w := by
  simp [cacheStore, updMap]

/-- Lookup of a just-stored cache entry at its own key (green version). -/
theorem cacheStore_last_green (st : CacheState) (n : String) (w : Int)
    (g b : String) (t : Nat) :
    (cacheStore st n w g b t).last_green_version n = some g := by
  simp [cacheStore, updMap]

/-- Lookup of a just-stored cache entry at its own key (blue version). -/
theorem cacheStore_last_blue (st : CacheState) (n : String) (w : Int)
    (g b : String) (t : Nat) :
    (cacheStore st n w g b t).last_blue_version n = some b := by
  simp [cacheStore, updMap]

/-- Lookup of a just-stored cache entry at its own key (fetch instant). -/
theorem cacheStore_last_retrieved (st : CacheState) (n : String) (w : Int)
    (g b : String) (t : Nat) :
    (cacheStore st n w g b t).last_retrieved n = some t := by
  simp [cacheStore, updMap]

/-- Freshness of a just-stored cache entry at its own key. -/
theorem cacheFresh_cacheStore (st : CacheState) (n : String) (w : Int)
    (g b : String) (t now : Nat) :
    cacheFresh (cacheStore st n w g b t) n now = decide (now - t < 30) := by
  simp [cacheFresh, cacheStore, updMap]

/-- **C6**: with no cache entry present, a read fetches and stores the
result with the current timestamp; a second read of the same key less than
30 seconds later returns the same info from the cache without fetching and
leaves the state unchanged; a read at least 31 seconds after the first
fetches again.  Hence two reads within 30 seconds invoke the fetcher
exactly once. -/
theorem c6_routing_cache_ttl (name : String) (st : CacheState)
    (t1 t2 t3 : Nat) (d1 d2 d3 : TxtOutcome)
    (hmiss : st.last_retrieved name = none)
    (h12 : t2 - t1 < 30) (h13 : 31 ≤ t3 - t1) (hd1 : d1 ≠ TxtOutcome.fail) :
    ∃ info st1, get_routing_info name t1 st d1 = Except.ok (info, st1, true) ∧
      st1.last_retrieved name = some t1 ∧
      get_routing_info name t2 st1 d2 = Except.ok (info, st1, false) ∧
      ∃ info3 st3, get_routing_info name t3 st1 d3 =
        Except.ok (info3, st3, true) := by
  have hfresh1 : cacheFresh st name t1 = false := by
    simp [cacheFresh, hmiss]
  have hstale3 : ¬ (t3 - t1 < 30) := by omega
  cases d1 with
  | fail => exact absurd rfl hd1
  | bare w =>
    refine ⟨⟨some w, some "unknown", some "unknown"⟩,
      cacheStore st name w "unknown" "unknown" t1, ?_, ?_, ?_, ?_⟩
    · simp [get_routing_info, hfresh1]
    · exact cacheStore_last_retrieved ..
    · simp [get_routing_info, cacheFresh_cacheStore, h12,
        cacheStore_last_weight, cacheStore_last_green, cacheStore_last_blue]
    · cases d3 <;>
        simp [get_routing_info, cacheFresh_cacheStore, hstale3]
  | legacy w v =>
    refine ⟨⟨some w, some v, some v⟩, cacheStore st name w v v t1,
      ?_, ?_, ?_, ?_⟩
    · simp [get_routing_info, hfresh1]
    · exact cacheStore_last_retrieved ..
    · simp [get_routing_info, cacheFresh_cacheStore, h12,
        cacheStore_last_weight, cacheStore_last_green, cacheStore_last_blue]
    · cases d3 <;>
        simp [get_routing_info, cacheFresh_cacheStore, hstale3]
  | full w b g =>
    refine ⟨⟨some w, some b, some g⟩, cacheStore st name w g b t1,
      ?_, ?_, ?_, ?_⟩
    · simp [get_routing_info, hfresh1]
    · exact cacheStore_last_retrieved ..
    · simp [get_routing_info, cacheFresh_cacheStore, h12,
        cacheStore_last_weight, cacheStore_last_green, cacheStore_last_blue]
    · cases d3 <;>
        simp [get_routing_info, cacheFresh_cacheStore, hstale3]

/-- Witness for `c6_routing_cache_ttl`: key `"r"`, empty cache, reads at
instants 0, 10 and 40, first fetch returning
`{'weight': 75, 'blue': 'b', 'green': 'g'}`. -/
theorem c6_routing_cache_ttl_witness :
    emptyCache.last_retrieved "r" = none ∧ 10 - 0 < 30 ∧ 31 ≤ 40 - 0 ∧
    TxtOutcome.full 75 "b" "g" ≠ TxtOutcome.fail ∧
    (∃ info st1,
      get_routing_info "r" 0 emptyCache (TxtOutcome.full 75 "b" "g") =
        Except.ok (info, st1, true) ∧
      st1.last_retrieved "r" = some 0 ∧
      get_routing_info "r" 10 st1 (TxtOutcome.full 20 "b2" "g2") =
        Except.ok (info, st1, false) ∧
      ∃ info3 st3, get_routing_info "r" 40 st1 (TxtOutcome.full 20 "b2" "g2") =
        Except.ok (info3, st3, true)) :=
  ⟨rfl, by decide, by decide, by decide,
   c6_routing_cache_ttl "r" emptyCache 0 10 40
    (TxtOutcome.full 75 "b" "g") (TxtOutcome.full 20 "b2" "g2")
    (TxtOutcome.full 20 "b2" "g2") rfl (by decide) (by decide) (by decide)⟩

/-- The single-quote character (ASCII 39). -/
def squote : Char := Char.ofNat 39

/-- A one-character string holding a single quote. -/
def sq : String := String.mk [squote]

/-- Python `str(info)` for the routing dict: the single-quoted rendering
`{'weight': 75, 'blue': 'a', 'green': 'b'}`, emitting only the keys
present (key order fixed to weight, blue, green, the order of the record
in the specification's round-trip property). -/
def strOfInfo (i : Info) : String :=
  let parts : List String :=
    (match i.weight with
      | some w => [sq ++ "weight" ++ sq ++ ": " ++ toString w]
      | none => []) ++
    (match i.blue with
      | some b => [sq ++ "blue" ++ sq ++ ": " ++ sq ++ b ++ sq]
      | none => []) ++
    (match i.green with
      | some g => [sq ++ "green" ++ sq ++ ": " ++ sq ++ g ++ sq]
      | none => [])
  "\x7b" ++ String.intercalate ", " parts ++ "\x7d"

/-- Character-level split used for Python `record_name.split('.')`;
structurally recursive so that proofs can evaluate it. -/
def splitCharAux (c : Char) : List Char → List Char → List (List Char)
  | [], acc => [acc.reverse]
  | x :: xs, acc =>
    if x = c then acc.reverse :: splitCharAux c xs []
    else splitCharAux c xs (x :: acc)

/-- Python `s.split(c)` for a single-character separator. -/
def pySplit (s : String) (c : Char) : List String :=
  (splitCharAux c s.data []).map String.mk

/-- Python truthiness for an optional string argument
(`None` and `""` are falsy). -/
def truthyS : Option String → Bool
  | some s => s ≠ ""
  | none => false

/-- A backend write issued by `set_active_color`. -/
inductive WriteReq
  | route53 (record domain txt : String)
  | kvsPut (arn key value : String)
  deriving DecidableEq, Repr

/-- `release.set_active_color` (lines 552-572).  Returns the Python result
together with the backend write issued, and passes the cache state through:
the source function never reads or writes the module-level cache
dictionaries.  `backendOk` is the result of the backend call
(`route53_update_txt_record` / `cloudfront_update_kvs_key`). -/
def set_active_color (st : CacheState) (info : Info)
    (record_name kvs_arn kvs_key : Option String) (backendOk : Bool) :
    (Bool × List WriteReq) × CacheState :=
  ((if truthyS record_name then
      let rn := record_name.getD ""
      let domain_name := String.intercalate "." (pySplit rn '.').tail
      let record := ((pySplit rn '.').head?).getD ""
      (backendOk, [WriteReq.route53 record domain_name (strOfInfo info)])
    else if truthyS kvs_arn ∧ truthyS kvs_key then
      (backendOk,
        [WriteReq.kvsPut (kvs_arn.getD "") (kvs_key.getD "") (strOfInfo info)])
    else
      (false, [])), st)

/-- **C7 counterexample**: cache holds `{'weight': 10, 'blue': 'b0',
'green': 'g0'}` for `"r.d"` fetched at instant 0; a successful
write-through of the flipped record `{'weight': 0, 'blue': 'v2',
'green': 'g0'}` via `set_active_color` leaves the cache untouched, and a
read at instant 5 (within the 30-second TTL) returns the stale pre-write
cached value, weight 10, without fetching — refuting the claim that the
cache entry is invalidated by a successful write-through. -/
theorem c7_counterexample_stale_cache :
    set_active_color (cacheStore emptyCache "r.d" 10 "g0" "b0" 0)
        ⟨some 0, some "v2", some "g0"⟩ (some "r.d") none none true =
      ((true, [WriteReq.route53 "r" "d" (strOfInfo ⟨some 0, some "v2", some "g0"⟩)]),
        cacheStore emptyCache "r.d" 10 "g0" "b0" 0) ∧
    get_routing_info "r.d" 5 (cacheStore emptyCache "r.d" 10 "g0" "b0" 0)
        (TxtOutcome.full 0 "v2" "g0") =
      Except.ok (⟨some 10, some "b0", some "g0"⟩,
        cacheStore emptyCache "r.d" 10 "g0" "b0" 0, false) ∧
    (⟨some 10, some "b0", some "g0"⟩ : Info) ≠ ⟨some 0, some "v2", some "g0"⟩ := by
  refine ⟨rfl, rfl, by decide⟩

/-- **C7** (amended): after a successful write-through of a new routing
record, the in-process cache entry is **not** invalidated: the cache state
is returned unchanged, and a subsequent read through the cache within the
30-second TTL returns the stale pre-write cached value without fetching. -/
theorem c7_amended_no_cache_invalidation (st : CacheState) (info : Info)
    (rn ka kk : Option String) (bOk : Bool) (name : String) (now t : Nat)
    (w : Int) (g b : String) (dns : TxtOutcome)
    (hw : st.last_weight name = some w)
    (hg : st.last_green_version name = some g)
    (hb : st.last_blue_version name = some b)
    (ht : st.last_retrieved name = some t)
    (hfresh : now - t < 30) :
    (set_active_color st info rn ka kk bOk).2 = st ∧
    get_routing_info name now ((set_active_color st info rn ka kk bOk).2) dns =
      Except.ok (⟨some w, some b, some g⟩, st, false) := by
  have hf : cacheFresh st name now = true := by
    simp [cacheFresh, ht, hfresh]
  refine ⟨rfl, ?_⟩
  have h2 : (set_active_color st info rn ka kk bOk).2 = st := rfl
  rw [h2]
  simp [get_routing_info, hf, hw, hg, hb]

/-- Witness for `c7_amended_no_cache_invalidation` on the cache that holds
weight 10 for key `"r.d"` fetched at instant 0, read back at instant 5. -/
theorem c7_amended_no_cache_invalidation_witness :
    (cacheStore emptyCache "r.d" 10 "g0" "b0" 0).last_weight "r.d" = some 10 ∧
    (cacheStore emptyCache "r.d" 10 "g0" "b0" 0).last_green_version "r.d" = some "g0" ∧
    (cacheStore emptyCache "r.d" 10 "g0" "b0" 0).last_blue_version "r.d" = some "b0" ∧
    (cacheStore emptyCache "r.d" 10 "g0" "b0" 0).last_retrieved "r.d" = some 0 ∧
    5 - 0 < 30 ∧
    ((set_active_color (cacheStore emptyCache "r.d" 10 "g0" "b0" 0)
        ⟨some 0, some "v2", some "g0"⟩ (some "r.d") none none true).2 =
      cacheStore emptyCache "r.d" 10 "g0" "b0" 0 ∧
    get_routing_info "r.d" 5
        ((set_active_color (cacheStore emptyCache "r.d" 10 "g0" "b0" 0)
          ⟨some 0, some "v2", some "g0"⟩ (some "r.d") none none true).2)
        (TxtOutcome.full 0 "v2" "g0") =
      Except.ok (⟨some 10, some "b0", some "g0"⟩,
        cacheStore emptyCache "r.d" 10 "g0" "b0" 0, false)) :=
  ⟨rfl, rfl, rfl, rfl, by decide,
   c7_amended_no_cache_invalidation (cacheStore emptyCache "r.d" 10 "g0" "b0" 0)
    ⟨some 0, some "v2", some "g0"⟩ (some "r.d") none none true "r.d" 5 0
    10 "g0" "b0" (TxtOutcome.full 0 "v2" "g0") rfl rfl rfl rfl (by decide)⟩

/-- The DNS branch of `get_inactive_color` (release.py lines 513-516
composed with the body): fetch routing info through `get_routing_info`,
then resolve the inactive color. -/
def get_inactive_color_dns (name : String) (now : Nat) (st : CacheState)
    (dns : TxtOutcome) (force_routing : Bool) (version : String)
    (writeOk : Bool) :
    Except PyErr ((Option String × List Info) × CacheState × Bool) := do
  let (info, st', fetched) ← get_routing_info name now st dns
  let r ← get_inactive_color info force_routing version writeOk
  Except.ok (r, st', fetched)

/-- **C10**: when the DNS lookup fails and the cache holds no fresh entry,
`get_routing_info` returns the empty mapping (no `weight` key) with the
cache unchanged, and `get_inactive_color`'s unguarded `info['weight']`
subscript raises `KeyError` — it neither reaches the `weight < 0` branch
nor returns `None` gracefully. -/
theorem c10_dns_failure_keyerror (name : String) (now : Nat)
    (st : CacheState) (fr : Bool) (v : String) (wk : Bool)
    (hnofresh : cacheFresh st name now = false) :
    get_routing_info name now st TxtOutcome.fail =
      Except.ok (⟨none, none, none⟩, st, true) ∧
    get_inactive_color_dns name now st TxtOutcome.fail fr v wk =
      Except.error (PyErr.keyError "weight") := by
  have h1 : get_routing_info name now st TxtOutcome.fail =
      Except.ok (⟨none, none, none⟩, st, true) := by
    simp [get_routing_info, hnofresh]
  refine ⟨h1, ?_⟩
  simp [get_inactive_color_dns, h1, Bind.bind, Except.bind, get_inactive_color]

/-- Witness for `c10_dns_failure_keyerror` on the empty cache at key
`"r"`, instant 0. -/
theorem c10_dns_failure_keyerror_witness :
    cacheFresh emptyCache "r" 0 = false ∧
    (get_routing_info "r" 0 emptyCache TxtOutcome.fail =
      Except.ok (⟨none, none, none⟩, emptyCache, true) ∧
    get_inactive_color_dns "r" 0 emptyCache TxtOutcome.fail true "v" true =
      Except.error (PyErr.keyError "weight")) :=
  ⟨rfl, c10_dns_failure_keyerror "r" 0 emptyCache true "v" true rfl⟩

/-- The double-quote character (ASCII 34). -/
def dquote : Char := Char.ofNat 34

/-- The opening-brace character (ASCII 123). -/
def lbraceC : Char := Char.ofNat 123

/-- The closing-brace character (ASCII 125). -/
def rbraceC : Char := Char.ofNat 125

/-- Python `s.replace("'", '"')` as used on routing payloads before
`json.loads` (release.py lines 446, 512; color_flip.py line 48). -/
def pyReplaceQuotes (s : String) : String :=
  String.mk (s.data.map (fun c => if c = squote then dquote else c))

/-- A JSON scalar of the routing payload: an integer or a string. -/
inductive JVal
  | jint (n : Int)
  | jstr (s : String)
  deriving DecidableEq, Repr

/-- Drop leading spaces. -/
def skipWs (cs : List Char) : List Char := cs.dropWhile (fun c => c = ' ')

/-- Read a JSON string body up to the closing double quote (escape
sequences do not occur in routing payloads). -/
def readStr : List Char → Option (String × List Char)
  | [] => none
  | c :: cs =>
    if c = dquote then some ("", cs)
    else match readStr cs with
      | some (s, rest) => some (String.mk (c :: s.data), rest)
      | none => none

/-- Split off a maximal run of decimal digits. -/
def readDigits : List Char → List Char × List Char
  | [] => ([], [])
  | c :: cs =>
    if c.isDigit then
      let (ds, rest) := readDigits cs
      (c :: ds, rest)
    else ([], c :: cs)

/-- Numeric value of a digit run. -/
def natOfDigits (ds : List Char) : Nat :=
  ds.foldl (fun acc c => acc * 10 + (c.toNat - 48)) 0

/-- Read a (possibly negative) JSON integer. -/
def readInt (cs : List Char) : Option (Int × List Char) :=
  match cs with
  | [] => none
  | c :: rest =>
    if c = '-' then
      match readDigits rest with
      | ([], _) => none
      | (ds, r) => some (-(natOfDigits ds : Int), r)
    else
      match readDigits cs with
      | ([], _) => none
      | (ds, r) => some ((natOfDigits ds : Int), r)

/-- Read a JSON scalar value (string or integer). -/
def readVal (cs : List Char) : Option (JVal × List Char) :=
  match cs with
  | [] => none
  | c :: rest =>
    if c = dquote then
      match readStr rest with
      | some (s, r) => some (JVal.jstr s, r)
      | none => none
    else
      match readInt cs with
      | some (n, r) => some (JVal.jint n, r)
      | none => none

/-- Read the `"key": value` pairs of a JSON object body, consuming the
closing brace; fuel-indexed for termination. -/
def readPairs : Nat → List Char → Option (List (String × JVal) × List Char)
  | 0, _ => none
  | fuel + 1, cs =>
    match skipWs cs with
    | [] => none
    | c :: cs1 =>
      if c = dquote then
        match readStr cs1 with
        | none => none
        | some (key, cs2) =>
          match skipWs cs2 with
          | ':' :: cs3 =>
            match readVal (skipWs cs3) with
            | none => none
            | some (v, cs4) =>
              match skipWs cs4 with
              | [] => none
              | ',' :: cs5 =>
                match readPairs fuel cs5 with
                | some (ps, rest) => some ((key, v) :: ps, rest)
                | none => none
              | c2 :: cs5 =>
                if c2 = rbraceC then some ([(key, v)], cs5) else none
          | _ => none
      else none

/-- `json.loads` restricted to the flat object shape of routing payloads:
an object of string/integer fields, with nothing after the closing
brace. -/
def jsonDecodePairs (s : String) : Option (List (String × JVal)) :=
  match skipWs s.data with
  | [] => none
  | c :: cs =>
    if c = lbraceC then
      match skipWs cs with
      | [] => none
      | c2 :: cs2 =>
        if c2 = rbraceC then
          if (skipWs cs2).isEmpty then some [] else none
        else
          match readPairs (s.length + 1) cs with
          | some (ps, rest) => if (skipWs rest).isEmpty then some ps else none
          | none => none
    else none

/-- First-match key lookup in a decoded object. -/
def jlookup (ps : List (String × JVal)) (k : String) : Option JVal :=
  match ps.find? (fun p => p.1 == k) with
  | some p => some p.2
  | none => none

/-- Integer projection of a decoded field. -/
def asInt : Option JVal → Option Int
  | some (JVal.jint n) => some n
  | _ => none

/-- String projection of a decoded field. -/
def asStr : Option JVal → Option String
  | some (JVal.jstr s) => some s
  | _ => none

/-- View a decoded routing payload as an `Info` record. -/
def infoOfPairs (ps : List (String × JVal)) : Info where
  weight := asInt (jlookup ps "weight")
  blue := asStr (jlookup ps "blue")
  green := asStr (jlookup ps "green")

/-- The single-quote-tolerant parse applied to a stored routing value:
replace `'` with `"`, then JSON-decode (release.py line 512). -/
def parse_single_quoted (s : String) : Option Info :=
  match jsonDecodePairs (pyReplaceQuotes s) with
  | some ps => some (infoOfPairs ps)
  | none => none

/-- **C8**: serializing the routing record
`{weight: 75, blue: "a", green: "b"}` to the KVS text format (`str(info)`,
the Python single-quoted dict rendering) and parsing it back with the
single-quote-tolerant parser yields a record identical to the original. -/
theorem c8_kvs_roundtrip :
    parse_single_quoted (strOfInfo ⟨some 75, some "a", some "b"⟩) =
      some ⟨some 75, some "a", some "b"⟩ := by
  decide

/-- Python `s.startswith('{')`. -/
def startsWithLbrace (s : String) : Bool :=
  match s.data with
  | c :: _ => c = lbraceC
  | [] => false

/-- A CloudFront key-value-store snapshot: the stored value for the routing
key and the store-level ETag returned by the describe call, modeled as a
counter advanced by each successful put.  `none` models a missing key /
unobtainable ETag (the wrappers return `None`). -/
structure KvsState where
  value : Option String
  etag : Option Nat
  deriving DecidableEq, Repr

/-- `aws.cloudfront_get_kvs_key` (lines 300-328): returns the stored value;
no ETag or conditional token is returned to the caller. -/
def cloudfront_get_kvs_key (s : KvsState) : Option String := s.value

/-- `aws.cloudfront_get_kvs_etag` (lines 331-357): the store-level ETag via
`describe_key_value_store`. -/
def cloudfront_get_kvs_etag (s : KvsState) : Option Nat := s.etag

/-- `aws.cloudfront_update_kvs_key` (lines 360-395): fetches the store's
*current* ETag via `cloudfront_get_kvs_etag` and immediately performs a
conditional `put_key` with it as `IfMatch`.  Returns the Python result, the
store state afterwards, and the token supplied as `IfMatch`.  Because the
token is the one just fetched, the conditional put matches and succeeds. -/
def cloudfront_update_kvs_key (s : KvsState) (value : String) :
    Bool × KvsState × Option Nat :=
  match cloudfront_get_kvs_etag s with
  | none => (false, s, none)
  | some e => (true, { value := some value, etag := some (e + 1) }, some e)

/-- `color_flip.py` (lines 45-57) on the KVS backend: read the current
record from the store snapshot `s1`, set `info[color] = version` and
`info['weight'] = FULL_ROUTING[color]`, then write through
`set_active_color`'s KVS branch — `cloudfront_update_kvs_key` with
`str(info)` — against the store snapshot `s2` current at write time
(another writer may have intervened between `s1` and `s2`).  Returns the
write result, the store afterwards, and the `IfMatch` token supplied. -/
def color_flip (color version : String) (s1 s2 : KvsState) :
    Except PyErr (Bool × KvsState × Option Nat) := do
  let raw ← match cloudfront_get_kvs_key s1 with
    | none => Except.error (PyErr.attributeError "NoneType has no startswith")
    | some r => Except.ok r
  let info ← if startsWithLbrace raw then
      match jsonDecodePairs (pyReplaceQuotes raw) with
      | some ps => Except.ok (infoOfPairs ps)
      | none => Except.error (PyErr.valueError "json.loads")
    else
      -- Python would keep `info` as a plain string here, and the following
      -- subscript assignment `info[_COLOR] = ...` raises TypeError
      Except.error (PyErr.typeError "str does not support item assignment")
  let info := setColorKey info color version
  let w ← match FULL_ROUTING color with
    | none => Except.error (PyErr.keyError color)
    | some w => Except.ok w
  let info := { info with weight := some w }
  Except.ok (cloudfront_update_kvs_key s2 (strOfInfo info))

/-- **C4 counterexample**: the flip of green with the store at ETag 1 at
the initial read, and at ETag 5 by write time (an intervening writer),
supplies `IfMatch = 5` — the ETag fetched immediately before the write —
not a token obtained at the initial read of step 1 (the read returns no
token at all), refuting the claim's "supplying the conditional token
obtained at the initial read of step 1". -/
theorem c4_counterexample_fresh_token :
    cloudfront_get_kvs_etag
        ⟨some (strOfInfo ⟨some 30, some "a", some "b"⟩), some 1⟩ = some 1 ∧
    color_flip "green" "v9"
        ⟨some (strOfInfo ⟨some 30, some "a", some "b"⟩), some 1⟩
        ⟨some (strOfInfo ⟨some 30, some "a", some "b"⟩), some 5⟩ =
      Except.ok (true,
        ⟨some (strOfInfo ⟨some 100, some "a", some "v9"⟩), some 6⟩, some 5) ∧
    (some 5 : Option Nat) ≠ some 1 := by
  refine ⟨rfl, rfl, by decide⟩

/-- **C4** (amended): a flip of a color reads the current record, sets that
color's version field, sets the weight to `FULL_ROUTING[color]` (blue→0,
green→100 — always a fully committed 0/100 state, preserving
`0 ≤ weight ≤ 100`), and writes the record back supplying a conditional
token freshly fetched from the store immediately before the write — not a
token obtained at the initial read of step 1, which returns none. -/
theorem c4_flip_full_routing (raw : String) (ps : List (String × JVal))
    (version : String) (v2 : Option String) (e1 e2 : Nat)
    (hstart : startsWithLbrace raw = true)
    (hparse : jsonDecodePairs (pyReplaceQuotes raw) = some ps) :
    (color_flip "blue" version ⟨some raw, some e1⟩ ⟨v2, some e2⟩ =
      Except.ok (true,
        ⟨some (strOfInfo
          { setColorKey (infoOfPairs ps) "blue" version with weight := some 0 }),
         some (e2 + 1)⟩, some e2)) ∧
    (color_flip "green" version ⟨some raw, some e1⟩ ⟨v2, some e2⟩ =
      Except.ok (true,
        ⟨some (strOfInfo
          { setColorKey (infoOfPairs ps) "green" version with weight := some 100 }),
         some (e2 + 1)⟩, some e2)) ∧
    FULL_ROUTING "blue" = some 0 ∧ FULL_ROUTING "green" = some 100 ∧
    (0:Int) ≤ 0 ∧ (0:Int) ≤ 100 ∧ (0:Int) ≤ 100 ∧ (100:Int) ≤ 100 := by
  refine ⟨?_, ?_, by decide, by decide, by decide, by decide, by decide, by decide⟩
  · simp [color_flip, Bind.bind, Except.bind, cloudfront_get_kvs_key, hstart,
      hparse, FULL_ROUTING, cloudfront_update_kvs_key, cloudfront_get_kvs_etag]
  · simp [color_flip, Bind.bind, Except.bind, cloudfront_get_kvs_key, hstart,
      hparse, FULL_ROUTING, cloudfront_update_kvs_key, cloudfront_get_kvs_etag]

/-- Witness for `c4_flip_full_routing` on the stored record
`{'weight': 30, 'blue': 'a', 'green': 'b'}` read at ETag 2, written at
ETag 7. -/
theorem c4_flip_full_routing_witness :
    startsWithLbrace (strOfInfo ⟨some 30, some "a", some "b"⟩) = true ∧
    jsonDecodePairs (pyReplaceQuotes (strOfInfo ⟨some 30, some "a", some "b"⟩)) =
      some [("weight", JVal.jint 30), ("blue", JVal.jstr "a"),
        ("green", JVal.jstr "b")] ∧
    ((color_flip "blue" "v7"
        ⟨some (strOfInfo ⟨some 30, some "a", some "b"⟩), some 2⟩ ⟨none, some 7⟩ =
      Except.ok (true,
        ⟨some (strOfInfo
          { setColorKey (infoOfPairs [("weight", JVal.jint 30),
              ("blue", JVal.jstr "a"), ("green", JVal.jstr "b")]) "blue" "v7"
            with weight := some 0 }),
         some (7 + 1)⟩, some 7)) ∧
    (color_flip "green" "v7"
        ⟨some (strOfInfo ⟨some 30, some "a", some "b"⟩), some 2⟩ ⟨none, some 7⟩ =
      Except.ok (true,
        ⟨some (strOfInfo
          { setColorKey (infoOfPairs [("weight", JVal.jint 30),
              ("blue", JVal.jstr "a"), ("green", JVal.jstr "b")]) "green" "v7"
            with weight := some 100 }),
         some (7 + 1)⟩, some 7)) ∧
    FULL_ROUTING "blue" = some 0 ∧ FULL_ROUTING "green" = some 100 ∧
    (0:Int) ≤ 0 ∧ (0:Int) ≤ 100 ∧ (0:Int) ≤ 100 ∧ (100:Int) ≤ 100) :=
  ⟨by decide, by decide,
   c4_flip_full_routing (strOfInfo ⟨some 30, some "a", some "b"⟩)
    [("weight", JVal.jint 30), ("blue", JVal.jstr "a"), ("green", JVal.jstr "b")]
    "v7" none 2 7 (by decide) (by decide)⟩

/-- Lower-case a string character by character (Python `str.lower` on the
ASCII names used here). -/
def pyLower (s : String) : String := String.mk (s.data.map Char.toLower)

/-- `p` is a leading segment of `s` (character lists). -/
def hasLead : List Char → List Char → Bool
  | _, [] => true
  | [], _ :: _ => false
  | a :: as, b :: bs => (a == b) && hasLead as bs

/-- Python `needle in hay` substring containment (character lists). -/
def subIn : List Char → List Char → Bool
  | hay, needle =>
    match hay with
    | [] => needle.isEmpty
    | _ :: rest => hasLead hay needle || subIn rest needle

/-- One container entry of an ECS task definition; the remaining task-level
fields (`family`, `volumes`, roles, compatibilities, ...) are consumed only
by the register call, which is abstracted as an environment outcome. -/
structure ContainerDef where
  name : String
  image : String
  deriving DecidableEq, Repr

/-- An ECS task definition restricted to the fields the image-mutation
logic touches. -/
structure TaskDef where
  containerDefinitions : List ContainerDef
  deriving DecidableEq, Repr

/-- `aws.ecs_set_new_image_in_task_def` (lines 1070-1101): for each
container, split `image` at `:` (a Python 2-element unpack), and rebuild it
with the new tag only when `containerName` is truthy and its lowercase form
occurs in the lowercase repository part; otherwise rebuild with the
original tag. -/
def ecs_set_new_image_in_task_def (task_def : TaskDef) (version : String)
    (containerName : Option String) : Except PyErr TaskDef := do
  if task_def.containerDefinitions.isEmpty then
    Except.error (PyErr.exception "containerDefinitions not found in task_def")
  else
    let cs ← task_def.containerDefinitions.mapM (fun container => do
      if container.image = "" then
        Except.error (PyErr.exception "container image value not found")
      else
        match pySplit container.image ':' with
        | [img, orig] =>
          let matched := match containerName with
            | some cn => cn ≠ "" && subIn (pyLower img).data (pyLower cn).data
            | none => false
          let newImage := if matched then img ++ ":" ++ version
            else img ++ ":" ++ orig
          Except.ok { container with image := newImage }
        | _ => Except.error (PyErr.valueError "not enough values to unpack"))
    Except.ok { task_def with containerDefinitions := cs }

/-- **C2** (code bug): evaluated on the task definition
`{containerDefinitions: [{name: "api", image: "repo/api:v1"}]}` with new
tag `"v2"`: a matching `container_name` rewrites the image to
`"repo/api:v2"` and a non-matching one leaves it unchanged (as claimed),
but with **no** `container_name` every image keeps its original tag —
contradicting the function's own docstring ("If no containerName, we will
replace ALL images in the task definition with the new tag") and the
claim. -/
theorem c2_no_container_name_keeps_old_tag :
    ecs_set_new_image_in_task_def ⟨[⟨"api", "repo/api:v1"⟩]⟩ "v2" none =
      Except.ok ⟨[⟨"api", "repo/api:v1"⟩]⟩ ∧
    ecs_set_new_image_in_task_def ⟨[⟨"api", "repo/api:v1"⟩]⟩ "v2" (some "api") =
      Except.ok ⟨[⟨"api", "repo/api:v2"⟩]⟩ ∧
    ecs_set_new_image_in_task_def ⟨[⟨"api", "repo/api:v1"⟩]⟩ "v2" (some "worker") =
      Except.ok ⟨[⟨"api", "repo/api:v1"⟩]⟩ := by
  exact ⟨rfl, rfl, rfl⟩

/-- An externally visible ECS control-plane action taken by the deploy. -/
inductive EcsAction
  | deployTaskDef (arn : String)
  | deregister (arn : String)
  deriving DecidableEq, Repr

/-- Environment outcomes for one `ecs_deploy_v2` run: the snapshotted
task-definition ARN and body, the ARN returned by the register call
(`none` = registration failed), and the results of the two
`ecs_wait_services_stable` calls. -/
structure EcsEnv where
  currentTaskDefArn : String
  currentTaskDef : TaskDef
  registeredArn : Option String
  firstWaitOk : Bool
  rollbackWaitOk : Bool

/-- The call `ecs_deregister_task_def(task_def=arn, session=..., region=...)`
at aws.py line 807 (and 931): the callee's signature (aws.py line 1248) is
`ecs_deregister_task_def(task_def_arn, session=None, region=None)` — it has
no parameter named `task_def` and no `**kwargs`, so Python raises
`TypeError` while binding the keyword, before the function body runs: no
deregister API call is ever issued.  (Called with the correct keyword it
would issue the deregister call and return a `Bool`, hence the result
type.) -/
def ecs_deregister_task_def_kwcall (_arn : String) :
    Except PyErr (Bool × List EcsAction) :=
  Except.error (PyErr.typeError
    "ecs_deregister_task_def() got an unexpected keyword argument task_def")

/-- `aws.ecs_deploy_v2` (lines 725-812) from the point where the snapshot
has been taken: mutate the image tag, register (abstracted outcome), point
the service at the new revision, wait; on wait failure redeploy the
snapshot ARN, wait again, raise on a failed rollback wait; when the
rollback wait succeeds, line 807 calls `ecs_deregister_task_def` with the
mis-spelled keyword `task_def=`, an uncaught `TypeError` — `return False`
on line 809 is unreachable. -/
def ecs_deploy_v2 (env : EcsEnv) (tag : String)
    (containerName : Option String) : Except PyErr (Bool × List EcsAction) := do
  let _new_task_definition ←
    ecs_set_new_image_in_task_def env.currentTaskDef tag containerName
  match env.registeredArn with
  | none => Except.ok (false, [])
  | some newArn =>
    let acts := [EcsAction.deployTaskDef newArn]
    if env.firstWaitOk then
      Except.ok (true, acts)
    else
      let acts := acts ++ [EcsAction.deployTaskDef env.currentTaskDefArn]
      if !env.rollbackWaitOk then
        Except.error (PyErr.exception
          "aws.ecsDeploy_v2(): Rolling back to original task def failed!")
      else do
        let (_ok, dacts) ← ecs_deregister_task_def_kwcall newArn
        Except.ok (false, acts ++ dacts)

/-- **C3** (code bug): evaluated on a deploy whose register call returned
`"arn:new"`, whose first stability wait timed out and whose rollback wait
succeeded — the input the claim's rollback-success branch describes —
`ecs_deploy_v2` does **not** deregister the failed revision and does
**not** return `False`: line 807 calls `ecs_deregister_task_def` with the
keyword `task_def=`, which the callee's signature (`task_def_arn`,
aws.py line 1248) does not accept, so an uncaught `TypeError` propagates.
The claim's fatal-exception branch (rollback wait also fails) does behave
as claimed.  Neither path returns success. -/
theorem c3_rollback_deregister_typeerror :
    ecs_deploy_v2 (EcsEnv.mk "arn:old" ⟨[⟨"api", "repo/api:v1"⟩]⟩
        (some "arn:new") false true) "v2" (some "api") =
      Except.error (PyErr.typeError
        "ecs_deregister_task_def() got an unexpected keyword argument task_def") ∧
    ecs_deploy_v2 (EcsEnv.mk "arn:old" ⟨[⟨"api", "repo/api:v1"⟩]⟩
        (some "arn:new") false false) "v2" (some "api") =
      Except.error (PyErr.exception
        "aws.ecsDeploy_v2(): Rolling back to original task def failed!") := by
  exact ⟨rfl, rfl⟩

/-- A Route53 API call issued by `route53_update_txt_record`, in order. -/
inductive R53Action
  | listZones (domain : String)
  | getTTL (zone fqdn : String)
  | testDns (zone fqdn : String)
  | upsert (zone fqdn : String) (ttl : Int) (value : String)
  deriving DecidableEq, Repr

/-- Environment outcomes for one `route53_update_txt_record` run:
`zoneId` — result of `route53_list_hosted_zones_by_name` (`none` = zone not
resolved / error, the wrapper returns `None`); `recordTTL` — result of
`route53_get_record_ttl` (`none` = record absent or lookup error);
`testDnsOk` / `changeOk` — whether `test_dns_answer` and
`change_resource_record_sets` succeed. -/
structure R53Env where
  zoneId : Option String
  recordTTL : Option Int
  testDnsOk : Bool
  changeOk : Bool

/-- `aws.route53_update_txt_record` (lines 1674-1754): resolve the hosted
zone (fail → `False`); with no explicit TTL (`ttl = 0`, the default, is
falsy) fetch the record's current TTL as an existence check and raise —
caught, returning `False` — when none is found; then `test_dns_answer` and
the UPSERT.  Returns the Python result and the list of API calls issued. -/
def route53_update_txt_record (env : R53Env)
    (record_name domain_name txt : String) (ttl : Int) :
    Bool × List R53Action :=
  let acts := [R53Action.listZones domain_name]
  match env.zoneId with
  | none => (false, acts)
  | some zone =>
    let fqdn := record_name ++ "." ++ domain_name
    let upsertPart := fun (t : Int) (acts : List R53Action) =>
      if !env.testDnsOk then (false, acts ++ [R53Action.testDns zone fqdn])
      else (env.changeOk,
        acts ++ [R53Action.testDns zone fqdn, R53Action.upsert zone fqdn t txt])
    if ttl = 0 then
      let acts := acts ++ [R53Action.getTTL zone fqdn]
      match env.recordTTL with
      | none => (false, acts)
      | some t => if t = 0 then (false, acts) else upsertPart t acts
    else upsertPart ttl acts

/-- **C9**: a DNS-TXT write with no explicit TTL first resolves the hosted
zone, then fetches the existing record's TTL as an existence check; if the
zone cannot be resolved or no TTL is found the write returns `False`
without issuing the UPSERT; an UPSERT is issued only when the record
exists (a TTL was found). -/
theorem c9_txt_write_requires_existing_record (env : R53Env)
    (rn dn txt : String) (ttl : Int) (httl : ttl = 0) :
    (env.zoneId = none →
      route53_update_txt_record env rn dn txt ttl =
        (false, [R53Action.listZones dn])) ∧
    (∀ zone, env.zoneId = some zone → env.recordTTL = none →
      route53_update_txt_record env rn dn txt ttl =
        (false, [R53Action.listZones dn,
          R53Action.getTTL zone (rn ++ "." ++ dn)])) ∧
    (∀ z f t v,
      R53Action.upsert z f t v ∈ (route53_update_txt_record env rn dn txt ttl).2 →
      ∃ zone t0, env.zoneId = some zone ∧ env.recordTTL = some t0 ∧ t0 ≠ 0) := by
  subst httl
  refine ⟨?_, ?_, ?_⟩
  · intro hz
    simp [route53_update_txt_record, hz]
  · intro zone hz ht
    simp [route53_update_txt_record, hz, ht]
  · intro z f t v hmem
    rcases hz : env.zoneId with _ | zone
    · simp [route53_update_txt_record, hz] at hmem
    · rcases ht : env.recordTTL with _ | t0
      · simp [route53_update_txt_record, hz, ht] at hmem
      · by_cases ht0 : t0 = 0
        · subst ht0
          simp [route53_update_txt_record, hz, ht] at hmem
        · exact ⟨zone, t0, rfl, rfl, ht0⟩

/-- Witness for `c9_txt_write_requires_existing_record` with zone `"Z1"`,
an existing record of TTL 300, and both API calls succeeding. -/
theorem c9_txt_write_requires_existing_record_witness :
    (0 : Int) = 0 ∧
    (((R53Env.mk (some "Z1") (some 300) true true).zoneId = none →
      route53_update_txt_record (R53Env.mk (some "Z1") (some 300) true true)
          "routing-api" "dev.example.com" "t" 0 =
        (false, [R53Action.listZones "dev.example.com"])) ∧
    (∀ zone, (R53Env.mk (some "Z1") (some 300) true true).zoneId = some zone →
      (R53Env.mk (some "Z1") (some 300) true true).recordTTL = none →
      route53_update_txt_record (R53Env.mk (some "Z1") (some 300) true true)
          "routing-api" "dev.example.com" "t" 0 =
        (false, [R53Action.listZones "dev.example.com",
          R53Action.getTTL zone ("routing-api" ++ "." ++ "dev.example.com")])) ∧
    (∀ z f t v, R53Action.upsert z f t v ∈
        (route53_update_txt_record (R53Env.mk (some "Z1") (some 300) true true)
          "routing-api" "dev.example.com" "t" 0).2 →
      ∃ zone t0, (R53Env.mk (some "Z1") (some 300) true true).zoneId = some zone ∧
        (R53Env.mk (some "Z1") (some 300) true true).recordTTL = some t0 ∧
        t0 ≠ 0)) :=
  ⟨rfl, c9_txt_write_requires_existing_record
    (R53Env.mk (some "Z1") (some 300) true true)
    "routing-api" "dev.example.com" "t" 0 rfl⟩

end CircleOrb
